import Mathlib

/-!
Verification of the alerts-list view component
(x-pack/plugins/triggers_actions_ui/public/application/sections/alerts_list/components/alerts_list.tsx).

The component is shallowly embedded: its pure helpers (convertAlertsToTableItems,
filterAlertsById) are translated directly; the stateful parts (the loadAlertsData
fetch routine, the search-field handlers, the render fallback chain, the toolbar)
are modelled as pure functions from the component state and the outcome of the
asynchronous fetch to the resulting state and emitted effects.

The external collaborators hasAllPrivilege and hasExecuteActionsCapability live
outside this file of the repository; they are taken as parameters (a predicate
`hp : Alert → Option AlertType → Bool` and a boolean `canExecuteActions`),
exactly as the component consumes them.
-/

/-- Privilege flags of one authorized consumer of an alert type. -/
structure ConsumerPrivileges where
  all : Bool
  read : Bool
deriving Repr, DecidableEq

/-- Alert-type reference data: id, display name and per-consumer privilege flags
(`authorizedConsumers` is a finite map keyed by consumer id, embedded as an
association list). -/
structure AlertType where
  id : String
  name : String
  authorizedConsumers : List (String × ConsumerPrivileges)
deriving Repr, DecidableEq

/-- Schedule of an alert (only the interval is used by this component). -/
structure Schedule where
  interval : String
deriving Repr, DecidableEq

/-- An alert entity as consumed by the list view. The actions are carried as a
list (the component only ever reads its length / emptiness). -/
structure Alert where
  id : String
  name : String
  tags : List String
  actions : List String
  alertTypeId : String
  schedule : Schedule
deriving Repr, DecidableEq

/-- The alert-type index: a Map from alert-type id to alert type, embedded as an
association list with lookup by key. -/
abbrev AlertTypeIndex := List (String × AlertType)

/-- Zero-based pagination state. -/
structure Pagination where
  index : Nat
  size : Nat
deriving Repr, DecidableEq

/-- A row view-model: the alert spread together with the derived fields
actionsText, tagsText, alertType and isEditable. -/
structure AlertTableItem where
  id : String
  name : String
  tags : List String
  actions : List String
  alertTypeId : String
  schedule : Schedule
  actionsText : Nat
  tagsText : String
  alertType : String
  isEditable : Bool
deriving Repr, DecidableEq

/-- Translation of convertAlertsToTableItems: maps each alert to its table item.
The authorization predicate hasAllPrivilege is external to this file and passed
in as `hp`. -/
def convertAlertsToTableItems (hp : Alert → Option AlertType → Bool)
    (alerts : List Alert) (alertTypesIndex : AlertTypeIndex)
    (canExecuteActions : Bool) : List AlertTableItem :=
  alerts.map fun alert =>
    { id := alert.id
      name := alert.name
      tags := alert.tags
      actions := alert.actions
      alertTypeId := alert.alertTypeId
      schedule := alert.schedule
      actionsText := alert.actions.length
      tagsText := String.intercalate ", " alert.tags
      alertType :=
        match alertTypesIndex.lookup alert.alertTypeId with
        | some alertType => alertType.name
        | none => alert.alertTypeId
      isEditable :=
        hp alert (alertTypesIndex.lookup alert.alertTypeId) &&
          (canExecuteActions || (!canExecuteActions && alert.actions.isEmpty)) }

/-- Translation of filterAlertsById: the loaded alerts whose id occurs in ids. -/
def filterAlertsById (alerts : List Alert) (ids : List String) : List Alert :=
  alerts.filter fun alert => ids.contains alert.id

/-- Concrete alert used to instantiate hypotheses of the proved theorems. -/
def wAlert : Alert :=
  { id := "a1", name := "alert one", tags := ["x", "y"], actions := []
    alertTypeId := "t1", schedule := { interval := "1m" } }

/-- Concrete alert type used to instantiate hypotheses of the proved theorems. -/
def wAlertType : AlertType :=
  { id := "t1", name := "Type One"
    authorizedConsumers := [("alerts", { all := true, read := true })] }

/-- State of the alerts fetch: loading flag, page-local alert data, total count. -/
structure AlertState where
  isLoading : Bool
  data : List Alert
  totalItemCount : Nat
deriving Repr, DecidableEq

/-- The parameters loadAlerts is called with (the http handle aside). -/
structure AlertsFetchParams where
  page : Pagination
  searchText : Option String
  typesFilter : List String
  actionTypesFilter : List String
deriving Repr, DecidableEq

/-- Outcome of the asynchronous loadAlerts call awaited by loadAlertsData:
either a response carrying the page of alerts and the total, or a thrown error. -/
inductive FetchOutcome where
  | success (data : List Alert) (total : Nat)
  | failure
deriving Repr, DecidableEq

/-- Result of one invocation of loadAlertsData: the alerts state and page after
the call settles, the request issued to loadAlerts (none when the guard
short-circuits), and the number of danger notifications emitted. -/
structure LoadAlertsResult where
  alertsState : AlertState
  page : Pagination
  fetchRequest : Option AlertsFetchParams
  dangerToasts : Nat
deriving Repr, DecidableEq

/-- Translation of loadAlertsData. The guard requires a non-empty alert-type
index; on success the alerts state is replaced and the page index is reset to 0
when the returned data is empty and the requested index was positive; on
failure one danger toast is emitted, the loading flag is cleared and the
previous data and total are kept. -/
def loadAlertsData (alertTypesIndex : AlertTypeIndex) (alertsState : AlertState)
    (page : Pagination) (searchText : Option String)
    (typesFilter actionTypesFilter : List String)
    (fetch : FetchOutcome) : LoadAlertsResult :=
  let hasAnyAuthorizedAlertType := alertTypesIndex.length > 0
  if hasAnyAuthorizedAlertType then
    match fetch with
    | .success data total =>
        { alertsState := { isLoading := false, data := data, totalItemCount := total }
          page := if data.isEmpty && page.index > 0 then { page with index := 0 } else page
          fetchRequest := some { page, searchText, typesFilter, actionTypesFilter }
          dangerToasts := 0 }
    | .failure =>
        { alertsState := { alertsState with isLoading := false }
          page := page
          fetchRequest := some { page, searchText, typesFilter, actionTypesFilter }
          dangerToasts := 1 }
  else
    { alertsState := alertsState
      page := page
      fetchRequest := none
      dangerToasts := 0 }

/-- The key code the search field commits on. -/
def ENTER_KEY : Nat := 13

/-- The two search-field text states: the raw input buffer (inputText) and the
committed search text (searchText) used by the alert fetch. Both start
undefined, embedded as Option. -/
structure SearchState where
  inputText : Option String
  searchText : Option String
deriving Repr, DecidableEq

/-- Translation of the search field onChange handler: stores the field value in
the input buffer. -/
def onSearchChange (s : SearchState) (value : String) : SearchState :=
  { s with inputText := some value }

/-- Translation of the search field onKeyUp handler: commits the input buffer
to the search text exactly when the key code is ENTER_KEY. -/
def onSearchKeyUp (s : SearchState) (keyCode : Nat) : SearchState :=
  if keyCode == ENTER_KEY then { s with searchText := s.inputText } else s

/-- The consumer id of the alerting feature itself (ALERTS_FEATURE_ID). -/
def ALERTS_FEATURE_ID : String := "alerts"

/-- Translation of authorizedToCreateAnyAlerts: some loaded alert type grants
the ALERTS_FEATURE_ID consumer the all privilege (optional chaining on a
missing consumer yields a falsy value). -/
def authorizedToCreateAnyAlerts (authorizedAlertTypes : List AlertType) : Bool :=
  authorizedAlertTypes.any fun alertType =>
    ((alertType.authorizedConsumers.lookup ALERTS_FEATURE_ID).map
      ConsumerPrivileges.all).getD false

/-- The values of the alert-type index, in index order (the spread of
alertTypesState.data.values()). -/
def indexValues (alertTypesIndex : AlertTypeIndex) : List AlertType :=
  alertTypesIndex.map Prod.snd

/-- Lodash isEmpty applied to a possibly undefined string. -/
def isEmptyText : Option String → Bool
  | none => true
  | some s => s.isEmpty

/-- Translation of isFilterApplied: some of the committed search text, the type
filter and the action-type filter is non-empty. -/
def isFilterApplied (searchText : Option String)
    (typesFilter actionTypesFilter : List String) : Bool :=
  !(isEmptyText searchText && typesFilter.isEmpty && actionTypesFilter.isEmpty)

/-- State of the one-shot alert-type loader. -/
structure AlertTypeState where
  isLoading : Bool
  isInitialized : Bool
  data : AlertTypeIndex
deriving Repr, DecidableEq

/-- The component state the rendering logic reads. -/
structure ComponentState where
  page : Pagination
  searchText : Option String
  inputText : Option String
  typesFilter : List String
  actionTypesFilter : List String
  selectedIds : List String
  alertTypesState : AlertTypeState
  alertsState : AlertState
deriving Repr, DecidableEq

/-- The four mutually exclusive top-level views of the component. -/
inductive RenderView where
  | table
  | spinner
  | createPrompt
  | noPermissionPrompt
deriving Repr, DecidableEq

/-- Translation of loadedItems: the projection of the loaded alerts used by the
render fallback chain (computed without the isInitialized guard). -/
def loadedItems (hp : Alert → Option AlertType → Bool) (canExecuteActions : Bool)
    (st : ComponentState) : List AlertTableItem :=
  convertAlertsToTableItems hp st.alertsState.data st.alertTypesState.data
    canExecuteActions

/-- Translation of the render fallback chain: items or an applied filter show
the table; else a running loader shows the spinner; else create authorization
shows the create prompt; else the permission-denied prompt. -/
def render (hp : Alert → Option AlertType → Bool) (canExecuteActions : Bool)
    (st : ComponentState) : RenderView :=
  if (loadedItems hp canExecuteActions st).length > 0 ||
      isFilterApplied st.searchText st.typesFilter st.actionTypesFilter then
    .table
  else if st.alertTypesState.isLoading || st.alertsState.isLoading then
    .spinner
  else if authorizedToCreateAnyAlerts (indexValues st.alertTypesState.data) then
    .createPrompt
  else
    .noPermissionPrompt

/-- The toolbar entries rendered on the right of the search field. -/
inductive ToolbarItem where
  | typeFilterTool
  | actionTypeFilterTool
  | createAlertButton
deriving Repr, DecidableEq

/-- Translation of the toolsRight construction: the two filters always, the
create-alert button only when the viewer may create some alert type. -/
def toolsRight (alertTypesIndex : AlertTypeIndex) : List ToolbarItem :=
  [ToolbarItem.typeFilterTool, ToolbarItem.actionTypeFilterTool] ++
    (if authorizedToCreateAnyAlerts (indexValues alertTypesIndex) then
      [ToolbarItem.createAlertButton]
    else
      [])

/-- Translation of authorizedToModifySelectedAlerts: with a non-empty
selection, every loaded alert whose id is selected passes hasAllPrivilege
against its type from the index; with an empty selection, false. -/
def authorizedToModifySelectedAlerts (hp : Alert → Option AlertType → Bool)
    (st : ComponentState) : Bool :=
  if st.selectedIds.length > 0 then
    (filterAlertsById st.alertsState.data st.selectedIds).all fun selectedAlert =>
      hp selectedAlert (st.alertTypesState.data.lookup selectedAlert.alertTypeId)
  else
    false

/-- The condition under which the bulk-edit controls (BulkOperationPopover with
the quick-edit buttons) are rendered. -/
def bulkEditRendered (hp : Alert → Option AlertType → Bool)
    (st : ComponentState) : Bool :=
  decide (st.selectedIds.length > 0) && authorizedToModifySelectedAlerts hp st

/-- Translation of the items passed to the table: empty until the alert-type
index is initialized, the projected alerts afterwards. -/
def tableItems (hp : Alert → Option AlertType → Bool) (canExecuteActions : Bool)
    (st : ComponentState) : List AlertTableItem :=
  if st.alertTypesState.isInitialized = false then
    []
  else
    convertAlertsToTableItems hp st.alertsState.data st.alertTypesState.data
      canExecuteActions

/-- C1: the projected isEditable field is true iff the viewer has full privilege
on the alert's type (looked up from the index by alertTypeId) and either the
execute-actions capability is present or the alert has no actions. -/
theorem isEditable_characterization (hp : Alert → Option AlertType → Bool)
    (alertTypesIndex : AlertTypeIndex) (canExecuteActions : Bool)
    (alerts : List Alert) (i : Nat) (alert : Alert)
    (h : alerts[i]? = some alert) :
    ∃ item,
      (convertAlertsToTableItems hp alerts alertTypesIndex canExecuteActions)[i]? =
        some item ∧
      (item.isEditable = true ↔
        hp alert (alertTypesIndex.lookup alert.alertTypeId) = true ∧
          (canExecuteActions = true ∨ alert.actions = [])) := by
  have hmap :
      (convertAlertsToTableItems hp alerts alertTypesIndex canExecuteActions)[i]? =
        (alerts[i]?).map fun alert =>
          { id := alert.id
            name := alert.name
            tags := alert.tags
            actions := alert.actions
            alertTypeId := alert.alertTypeId
            schedule := alert.schedule
            actionsText := alert.actions.length
            tagsText := String.intercalate ", " alert.tags
            alertType :=
              match alertTypesIndex.lookup alert.alertTypeId with
              | some alertType => alertType.name
              | none => alert.alertTypeId
            isEditable :=
              hp alert (alertTypesIndex.lookup alert.alertTypeId) &&
                (canExecuteActions || (!canExecuteActions && alert.actions.isEmpty)) } := by
    simp [convertAlertsToTableItems, List.getElem?_map]
  rw [h, Option.map_some'] at hmap
  refine ⟨_, hmap, ?_⟩
  cases hv : hp alert (alertTypesIndex.lookup alert.alertTypeId) <;>
    cases canExecuteActions <;>
    simp [hv, List.isEmpty_iff]

/-- Concrete instantiation of isEditable_characterization. -/
theorem isEditable_characterization_witness :
    ∃ item,
      (convertAlertsToTableItems (fun _ _ => true) [wAlert] [] true)[0]? =
        some item ∧
      (item.isEditable = true ↔
        (fun _ _ => true) wAlert (([] : AlertTypeIndex).lookup wAlert.alertTypeId) = true ∧
          (true = true ∨ wAlert.actions = [])) :=
  isEditable_characterization (fun _ _ => true) [] true [wAlert] 0 wAlert rfl

/-- C2: with an empty alert-type index, loadAlertsData issues no fetch, emits no
notification, and leaves the alerts state and the page unchanged, whatever the
query state. -/
theorem loadAlertsData_empty_index_no_fetch
    (alertTypesIndex : AlertTypeIndex) (alertsState : AlertState)
    (page : Pagination) (searchText : Option String)
    (typesFilter actionTypesFilter : List String) (fetch : FetchOutcome)
    (hempty : alertTypesIndex = []) :
    (loadAlertsData alertTypesIndex alertsState page searchText typesFilter
        actionTypesFilter fetch).fetchRequest = none ∧
    (loadAlertsData alertTypesIndex alertsState page searchText typesFilter
        actionTypesFilter fetch).alertsState = alertsState ∧
    (loadAlertsData alertTypesIndex alertsState page searchText typesFilter
        actionTypesFilter fetch).page = page ∧
    (loadAlertsData alertTypesIndex alertsState page searchText typesFilter
        actionTypesFilter fetch).dangerToasts = 0 := by
  subst hempty
  simp [loadAlertsData]

/-- Concrete instantiation of loadAlertsData_empty_index_no_fetch. -/
theorem loadAlertsData_empty_index_no_fetch_witness :
    (loadAlertsData [] { isLoading := false, data := [wAlert], totalItemCount := 5 }
        { index := 2, size := 10 } (some "q") ["t1"] ["a1"]
        (.success [] 0)).fetchRequest = none ∧
    (loadAlertsData [] { isLoading := false, data := [wAlert], totalItemCount := 5 }
        { index := 2, size := 10 } (some "q") ["t1"] ["a1"]
        (.success [] 0)).alertsState =
      { isLoading := false, data := [wAlert], totalItemCount := 5 } ∧
    (loadAlertsData [] { isLoading := false, data := [wAlert], totalItemCount := 5 }
        { index := 2, size := 10 } (some "q") ["t1"] ["a1"]
        (.success [] 0)).page = { index := 2, size := 10 } ∧
    (loadAlertsData [] { isLoading := false, data := [wAlert], totalItemCount := 5 }
        { index := 2, size := 10 } (some "q") ["t1"] ["a1"]
        (.success [] 0)).dangerToasts = 0 :=
  loadAlertsData_empty_index_no_fetch [] _ _ _ _ _ _ rfl

/-- C3: with a non-empty index, a successful fetch that returns an empty data
array while the requested page index is positive resets the page index to 0
(keeping the size); the changed page re-triggers the effect, and the subsequent
loadAlertsData issues a fetch at the reset page. A non-empty response or a
page-0 request leaves the page unchanged. -/
theorem loadAlertsData_empty_page_resets_and_refetches
    (alertTypesIndex : AlertTypeIndex) (alertsState : AlertState)
    (page : Pagination) (searchText : Option String)
    (typesFilter actionTypesFilter : List String) (data : List Alert) (total : Nat)
    (hidx : alertTypesIndex ≠ []) :
    (data = [] ∧ 0 < page.index →
      (loadAlertsData alertTypesIndex alertsState page searchText typesFilter
          actionTypesFilter (.success data total)).page = { page with index := 0 } ∧
      (loadAlertsData alertTypesIndex alertsState page searchText typesFilter
          actionTypesFilter (.success data total)).page ≠ page ∧
      (∀ fetch2 : FetchOutcome,
        (loadAlertsData alertTypesIndex
            (loadAlertsData alertTypesIndex alertsState page searchText typesFilter
              actionTypesFilter (.success data total)).alertsState
            { page with index := 0 } searchText typesFilter actionTypesFilter
            fetch2).fetchRequest =
          some { page := { page with index := 0 }, searchText := searchText
                 typesFilter := typesFilter, actionTypesFilter := actionTypesFilter })) ∧
    (data ≠ [] ∨ page.index = 0 →
      (loadAlertsData alertTypesIndex alertsState page searchText typesFilter
          actionTypesFilter (.success data total)).page = page) := by
  have hlen : alertTypesIndex.length > 0 := by
    cases alertTypesIndex with
    | nil => exact absurd rfl hidx
    | cons a l => simp
  constructor
  · rintro ⟨hdata, hpos⟩
    subst hdata
    refine ⟨?_, ?_, ?_⟩
    · simp [loadAlertsData, hlen, hpos]
    · simp [loadAlertsData, hlen, hpos]
      intro hcontra
      have h0 := congrArg Pagination.index hcontra
      simp at h0
      omega
    · intro fetch2
      cases fetch2 <;> simp [loadAlertsData, hlen]
  · intro hor
    rcases hor with hdata | hzero
    · have : data.isEmpty = false := by
        cases data with
        | nil => exact absurd rfl hdata
        | cons a l => rfl
      simp [loadAlertsData, hlen, this]
    · simp [loadAlertsData, hlen, hzero]

/-- Concrete instantiation of loadAlertsData_empty_page_resets_and_refetches. -/
theorem loadAlertsData_empty_page_resets_and_refetches_witness :
    (([] : List Alert) = [] ∧ 0 < (Pagination.mk 3 10).index →
      (loadAlertsData [("t1", wAlertType)]
          { isLoading := true, data := [wAlert], totalItemCount := 31 }
          { index := 3, size := 10 } none [] [] (.success [] 0)).page =
        { Pagination.mk 3 10 with index := 0 } ∧
      (loadAlertsData [("t1", wAlertType)]
          { isLoading := true, data := [wAlert], totalItemCount := 31 }
          { index := 3, size := 10 } none [] [] (.success [] 0)).page ≠
        Pagination.mk 3 10 ∧
      (∀ fetch2 : FetchOutcome,
        (loadAlertsData [("t1", wAlertType)]
            (loadAlertsData [("t1", wAlertType)]
                { isLoading := true, data := [wAlert], totalItemCount := 31 }
                { index := 3, size := 10 } none [] [] (.success [] 0)).alertsState
            { Pagination.mk 3 10 with index := 0 } none [] [] fetch2).fetchRequest =
          some { page := { Pagination.mk 3 10 with index := 0 }, searchText := none
                 typesFilter := [], actionTypesFilter := [] })) ∧
    (([] : List Alert) ≠ [] ∨ (Pagination.mk 3 10).index = 0 →
      (loadAlertsData [("t1", wAlertType)]
          { isLoading := true, data := [wAlert], totalItemCount := 31 }
          { index := 3, size := 10 } none [] [] (.success [] 0)).page =
        Pagination.mk 3 10) :=
  loadAlertsData_empty_page_resets_and_refetches [("t1", wAlertType)] _ _ _ _ _ _ _
    (by simp)

/-- C5: with a non-empty index, a failed fetch emits exactly one danger
notification, clears the loading flag, and keeps the previously displayed alert
data, total count and page unchanged. -/
theorem loadAlertsData_failure_stale_state
    (alertTypesIndex : AlertTypeIndex) (alertsState : AlertState)
    (page : Pagination) (searchText : Option String)
    (typesFilter actionTypesFilter : List String)
    (hidx : alertTypesIndex ≠ []) :
    (loadAlertsData alertTypesIndex alertsState page searchText typesFilter
        actionTypesFilter .failure).dangerToasts = 1 ∧
    (loadAlertsData alertTypesIndex alertsState page searchText typesFilter
        actionTypesFilter .failure).alertsState.isLoading = false ∧
    (loadAlertsData alertTypesIndex alertsState page searchText typesFilter
        actionTypesFilter .failure).alertsState.data = alertsState.data ∧
    (loadAlertsData alertTypesIndex alertsState page searchText typesFilter
        actionTypesFilter .failure).alertsState.totalItemCount = alertsState.totalItemCount ∧
    (loadAlertsData alertTypesIndex alertsState page searchText typesFilter
        actionTypesFilter .failure).page = page := by
  have hlen : alertTypesIndex.length > 0 := by
    cases alertTypesIndex with
    | nil => exact absurd rfl hidx
    | cons a l => simp
  simp [loadAlertsData, hlen]

/-- Concrete instantiation of loadAlertsData_failure_stale_state. -/
theorem loadAlertsData_failure_stale_state_witness :
    (loadAlertsData [("t1", wAlertType)]
        { isLoading := true, data := [wAlert], totalItemCount := 7 }
        { index := 1, size := 25 } (some "s") [] [] .failure).dangerToasts = 1 ∧
    (loadAlertsData [("t1", wAlertType)]
        { isLoading := true, data := [wAlert], totalItemCount := 7 }
        { index := 1, size := 25 } (some "s") [] [] .failure).alertsState.isLoading = false ∧
    (loadAlertsData [("t1", wAlertType)]
        { isLoading := true, data := [wAlert], totalItemCount := 7 }
        { index := 1, size := 25 } (some "s") [] [] .failure).alertsState.data =
      ({ isLoading := true, data := [wAlert], totalItemCount := 7 } : AlertState).data ∧
    (loadAlertsData [("t1", wAlertType)]
        { isLoading := true, data := [wAlert], totalItemCount := 7 }
        { index := 1, size := 25 } (some "s") [] [] .failure).alertsState.totalItemCount =
      ({ isLoading := true, data := [wAlert], totalItemCount := 7 } : AlertState).totalItemCount ∧
    (loadAlertsData [("t1", wAlertType)]
        { isLoading := true, data := [wAlert], totalItemCount := 7 }
        { index := 1, size := 25 } (some "s") [] [] .failure).page =
      { index := 1, size := 25 } :=
  loadAlertsData_failure_stale_state [("t1", wAlertType)] _ _ _ _ _ (by simp)

/-- C4: a key event commits the input buffer to the search text exactly when
its key code is ENTER_KEY (13), and never touches the input buffer; a change
event updates only the input buffer and never the committed search text. -/
theorem search_commits_only_on_enter (s : SearchState) (value : String)
    (keyCode : Nat) :
    (onSearchKeyUp s keyCode).searchText =
      (if keyCode = ENTER_KEY then s.inputText else s.searchText) ∧
    (onSearchKeyUp s keyCode).inputText = s.inputText ∧
    (onSearchChange s value).inputText = some value ∧
    (onSearchChange s value).searchText = s.searchText := by
  by_cases h : keyCode = ENTER_KEY <;>
    simp [onSearchKeyUp, onSearchChange, h]

/-- C7: the bulk-edit controls are rendered iff the selection is non-empty and
every loaded alert whose id is selected passes hasAllPrivilege against its
alert type from the index. -/
theorem bulkEdit_rendered_iff (hp : Alert → Option AlertType → Bool)
    (st : ComponentState) :
    bulkEditRendered hp st = true ↔
      (st.selectedIds ≠ [] ∧
        ∀ alert ∈ st.alertsState.data, alert.id ∈ st.selectedIds →
          hp alert (st.alertTypesState.data.lookup alert.alertTypeId) = true) := by
  cases hsel : st.selectedIds with
  | nil =>
      simp [bulkEditRendered, authorizedToModifySelectedAlerts, hsel]
  | cons a l =>
      simp [bulkEditRendered, authorizedToModifySelectedAlerts, hsel,
        filterAlertsById, List.all_eq_true, List.mem_filter]
      refine forall₂_congr fun alert ha => ?_
      tauto

/-- C10: for a non-empty selection none of whose ids matches a loaded alert,
the authorization check is vacuously true and the bulk-edit controls are
rendered. -/
theorem bulkEdit_rendered_for_stale_selection (hp : Alert → Option AlertType → Bool)
    (st : ComponentState)
    (hsel : st.selectedIds ≠ [])
    (hnone : ∀ alert ∈ st.alertsState.data, alert.id ∉ st.selectedIds) :
    authorizedToModifySelectedAlerts hp st = true ∧
    bulkEditRendered hp st = true := by
  have hfilter : filterAlertsById st.alertsState.data st.selectedIds = [] := by
    simp only [filterAlertsById, List.filter_eq_nil_iff]
    intro alert halert
    simpa using hnone alert halert
  have hlen : st.selectedIds.length > 0 := by
    cases hc : st.selectedIds with
    | nil => exact absurd hc hsel
    | cons a l => simp [hc]
  have hauth : authorizedToModifySelectedAlerts hp st = true := by
    simp [authorizedToModifySelectedAlerts, hlen, hfilter]
  exact ⟨hauth, by simp [bulkEditRendered, hlen, hauth]⟩

/-- Concrete component state for the stale-selection instantiation: the
selection names an id absent from the loaded data. -/
def wStaleSelectionState : ComponentState :=
  { page := { index := 0, size := 10 }, searchText := none, inputText := none
    typesFilter := [], actionTypesFilter := [], selectedIds := ["ghost"]
    alertTypesState := { isLoading := false, isInitialized := true
                         data := [("t1", wAlertType)] }
    alertsState := { isLoading := false, data := [wAlert], totalItemCount := 1 } }

/-- Concrete instantiation of bulkEdit_rendered_for_stale_selection. -/
theorem bulkEdit_rendered_for_stale_selection_witness :
    authorizedToModifySelectedAlerts (fun _ _ => false) wStaleSelectionState = true ∧
    bulkEditRendered (fun _ _ => false) wStaleSelectionState = true :=
  bulkEdit_rendered_for_stale_selection (fun _ _ => false) wStaleSelectionState
    (by simp [wStaleSelectionState]) (by decide)

/-- C6: exactly one of the four top-level views is rendered, with this
priority: items or a non-empty search text or filter show the table; else a
running loader shows the spinner; else create authorization shows the create
prompt; else the permission-denied prompt. -/
theorem renderView_fallback_chain (hp : Alert → Option AlertType → Bool)
    (canExecuteActions : Bool) (st : ComponentState) :
    (render hp canExecuteActions st = RenderView.table ↔
      (loadedItems hp canExecuteActions st ≠ [] ∨
        isEmptyText st.searchText = false ∨
        st.typesFilter ≠ [] ∨ st.actionTypesFilter ≠ [])) ∧
    (render hp canExecuteActions st = RenderView.spinner ↔
      (¬(loadedItems hp canExecuteActions st ≠ [] ∨
          isEmptyText st.searchText = false ∨
          st.typesFilter ≠ [] ∨ st.actionTypesFilter ≠ []) ∧
        (st.alertTypesState.isLoading = true ∨ st.alertsState.isLoading = true))) ∧
    (render hp canExecuteActions st = RenderView.createPrompt ↔
      (¬(loadedItems hp canExecuteActions st ≠ [] ∨
          isEmptyText st.searchText = false ∨
          st.typesFilter ≠ [] ∨ st.actionTypesFilter ≠ []) ∧
        ¬(st.alertTypesState.isLoading = true ∨ st.alertsState.isLoading = true) ∧
        authorizedToCreateAnyAlerts (indexValues st.alertTypesState.data) = true)) ∧
    (render hp canExecuteActions st = RenderView.noPermissionPrompt ↔
      (¬(loadedItems hp canExecuteActions st ≠ [] ∨
          isEmptyText st.searchText = false ∨
          st.typesFilter ≠ [] ∨ st.actionTypesFilter ≠ []) ∧
        ¬(st.alertTypesState.isLoading = true ∨ st.alertsState.isLoading = true) ∧
        authorizedToCreateAnyAlerts (indexValues st.alertTypesState.data) = false)) := by
  have hcond :
      (decide ((loadedItems hp canExecuteActions st).length > 0) ||
        isFilterApplied st.searchText st.typesFilter st.actionTypesFilter) = true ↔
      (loadedItems hp canExecuteActions st ≠ [] ∨
        isEmptyText st.searchText = false ∨
        st.typesFilter ≠ [] ∨ st.actionTypesFilter ≠ []) := by
    rw [Bool.or_eq_true, decide_eq_true_eq, gt_iff_lt, List.length_pos,
      isFilterApplied]
    cases hie : isEmptyText st.searchText <;>
      cases htf : st.typesFilter <;> cases haf : st.actionTypesFilter <;> simp
  by_cases hA :
      (loadedItems hp canExecuteActions st ≠ [] ∨
        isEmptyText st.searchText = false ∨
        st.typesFilter ≠ [] ∨ st.actionTypesFilter ≠ [])
  · have hc : (decide ((loadedItems hp canExecuteActions st).length > 0) ||
        isFilterApplied st.searchText st.typesFilter st.actionTypesFilter) = true :=
      hcond.mpr hA
    refine ⟨?_, ?_, ?_, ?_⟩ <;> simp [render, hc, hA]
  · have hc : (decide ((loadedItems hp canExecuteActions st).length > 0) ||
        isFilterApplied st.searchText st.typesFilter st.actionTypesFilter) = false := by
      cases hb : (decide ((loadedItems hp canExecuteActions st).length > 0) ||
          isFilterApplied st.searchText st.typesFilter st.actionTypesFilter) with
      | false => rfl
      | true => exact absurd (hcond.mp hb) hA
    cases hTL : st.alertTypesState.isLoading <;>
      cases hAL : st.alertsState.isLoading <;>
      cases hAuth : authorizedToCreateAnyAlerts (indexValues st.alertTypesState.data) <;>
      refine ⟨?_, ?_, ?_, ?_⟩ <;>
      simp [render, hc, hA, hTL, hAL, hAuth]

/-- C8: when no loaded alert type grants the ALERTS_FEATURE_ID consumer the
all privilege, the create-alert button is not in the toolbar, and the empty
state (empty search text, no filters, no loaded alerts, no loader running)
renders the permission-denied prompt. -/
theorem no_create_authorization_gating (hp : Alert → Option AlertType → Bool)
    (canExecuteActions : Bool) (st : ComponentState)
    (hauth : ∀ alertType ∈ indexValues st.alertTypesState.data,
      ((alertType.authorizedConsumers.lookup ALERTS_FEATURE_ID).map
        ConsumerPrivileges.all).getD false = false)
    (hsearch : isEmptyText st.searchText = true)
    (htf : st.typesFilter = []) (haf : st.actionTypesFilter = [])
    (hdata : st.alertsState.data = [])
    (hl1 : st.alertTypesState.isLoading = false)
    (hl2 : st.alertsState.isLoading = false) :
    ToolbarItem.createAlertButton ∉ toolsRight st.alertTypesState.data ∧
    render hp canExecuteActions st = RenderView.noPermissionPrompt := by
  have hA : authorizedToCreateAnyAlerts (indexValues st.alertTypesState.data) = false := by
    cases hb : authorizedToCreateAnyAlerts (indexValues st.alertTypesState.data) with
    | false => rfl
    | true =>
        rw [authorizedToCreateAnyAlerts, List.any_eq_true] at hb
        obtain ⟨alertType, hmem, hflag⟩ := hb
        rw [hauth alertType hmem] at hflag
        cases hflag
  have hloaded : loadedItems hp canExecuteActions st = [] := by
    simp [loadedItems, convertAlertsToTableItems, hdata]
  constructor
  · simp [toolsRight, hA]
  · simp [render, hloaded, isFilterApplied, hsearch, htf, haf, hl1, hl2, hA]

/-- Alert type granting the alerting feature only the read privilege. -/
def wAlertTypeReadOnly : AlertType :=
  { id := "t2", name := "Type Two"
    authorizedConsumers := [("alerts", { all := false, read := true })] }

/-- Concrete component state with no create authorization, empty results, no
filters and idle loaders. -/
def wDeniedState : ComponentState :=
  { page := { index := 0, size := 10 }, searchText := none, inputText := none
    typesFilter := [], actionTypesFilter := [], selectedIds := []
    alertTypesState := { isLoading := false, isInitialized := true
                         data := [("t2", wAlertTypeReadOnly)] }
    alertsState := { isLoading := false, data := [], totalItemCount := 0 } }

/-- Concrete instantiation of no_create_authorization_gating. -/
theorem no_create_authorization_gating_witness :
    ToolbarItem.createAlertButton ∉ toolsRight wDeniedState.alertTypesState.data ∧
    render (fun _ _ => true) true wDeniedState = RenderView.noPermissionPrompt :=
  no_create_authorization_gating (fun _ _ => true) true wDeniedState
    (by decide) rfl rfl rfl rfl rfl rfl

/-- Concrete component state whose alert-type index has not yet initialized
while an alert is already in the alerts state. -/
def wUninitializedState : ComponentState :=
  { page := { index := 0, size := 10 }, searchText := none, inputText := none
    typesFilter := [], actionTypesFilter := [], selectedIds := []
    alertTypesState := { isLoading := true, isInitialized := false, data := [] }
    alertsState := { isLoading := false, data := [wAlert], totalItemCount := 1 } }

/-- C9 counterexample: before the alert-type index is resolved the table
receives no items at all, so no alert row is rendered with the raw
alertTypeId: here an alert is loaded, its type id is absent from the index,
the index is not initialized, and the item list is empty. -/
theorem tableItems_uninitialized_no_rows :
    wUninitializedState.alertsState.data = [wAlert] ∧
    wUninitializedState.alertTypesState.isInitialized = false ∧
    wUninitializedState.alertTypesState.data.lookup wAlert.alertTypeId = none ∧
    tableItems (fun _ _ => true) true wUninitializedState = [] :=
  ⟨rfl, rfl, rfl, rfl⟩

/-- C9 amended: the table renders no rows until the alert-type index is
initialized; once it is, the projected alertType field of each row is the
display name of the alert's type when its id is present in the index, and the
raw alertTypeId when it is absent. -/
theorem tableItems_type_name_fallback (hp : Alert → Option AlertType → Bool)
    (canExecuteActions : Bool) (st : ComponentState) :
    (st.alertTypesState.isInitialized = false →
      tableItems hp canExecuteActions st = []) ∧
    (st.alertTypesState.isInitialized = true →
      ∀ (i : Nat) (alert : Alert), st.alertsState.data[i]? = some alert →
        ∃ item, (tableItems hp canExecuteActions st)[i]? = some item ∧
          (st.alertTypesState.data.lookup alert.alertTypeId = none →
            item.alertType = alert.alertTypeId) ∧
          (∀ alertType,
            st.alertTypesState.data.lookup alert.alertTypeId = some alertType →
              item.alertType = alertType.name)) := by
  constructor
  · intro hinit
    simp [tableItems, hinit]
  · intro hinit i alert h
    have htable : tableItems hp canExecuteActions st =
        convertAlertsToTableItems hp st.alertsState.data st.alertTypesState.data
          canExecuteActions := by
      simp [tableItems, hinit]
    rw [htable]
    have hmap :
        (convertAlertsToTableItems hp st.alertsState.data st.alertTypesState.data
            canExecuteActions)[i]? =
          (st.alertsState.data[i]?).map fun alert =>
            { id := alert.id
              name := alert.name
              tags := alert.tags
              actions := alert.actions
              alertTypeId := alert.alertTypeId
              schedule := alert.schedule
              actionsText := alert.actions.length
              tagsText := String.intercalate ", " alert.tags
              alertType :=
                match st.alertTypesState.data.lookup alert.alertTypeId with
                | some alertType => alertType.name
                | none => alert.alertTypeId
              isEditable :=
                hp alert (st.alertTypesState.data.lookup alert.alertTypeId) &&
                  (canExecuteActions ||
                    (!canExecuteActions && alert.actions.isEmpty)) } := by
      simp [convertAlertsToTableItems, List.getElem?_map]
    rw [h, Option.map_some'] at hmap
    refine ⟨_, hmap, ?_, ?_⟩
    · intro hnone
      simp [hnone]
    · intro alertType hsome
      simp [hsome]

/-- Concrete instantiation of tableItems_type_name_fallback. -/
theorem tableItems_type_name_fallback_witness :
    wStaleSelectionState.alertTypesState.isInitialized = true ∧
    ∃ item, (tableItems (fun _ _ => true) true wStaleSelectionState)[0]? = some item ∧
      (wStaleSelectionState.alertTypesState.data.lookup wAlert.alertTypeId = none →
        item.alertType = wAlert.alertTypeId) ∧
      (∀ alertType,
        wStaleSelectionState.alertTypesState.data.lookup wAlert.alertTypeId =
            some alertType →
          item.alertType = alertType.name) :=
  ⟨rfl,
    (tableItems_type_name_fallback (fun _ _ => true) true wStaleSelectionState).2
      rfl 0 wAlert rfl⟩
